import Mathlib

/-!
Shallow embedding of the realtime voice-session manager of the
japanese-roleplay-app repository (src/hooks/useRealtimeFinal.ts,
src/hooks/useRealtimeFixed.ts, src/hooks/useRealtimeWebRTC.ts and
src/lib/agents/roleplayAgent.ts), together with theorems checking the
specification's claims about it.

Conventions of the embedding:
* JavaScript runtime values carried on the control channel are modelled by
  `JValue`; JS `undefined` and `null` are conflated into `JValue.null`
  (both are falsy, both fail every `===` comparison against a string, and
  both propagate through `?.` field access the same way in this code).
* React state updates (`setState` with a functional update) are modelled as
  pure state transformers; updates batched inside one synchronous block are
  applied in program order and become observable only when the block
  returns, which is how React applies them.
* The browser / network environment of one `connect()` call (token
  response, microphone permission, SDP availability, negotiation response)
  is a `ConnectEnv`-style record, and the side effects the call performs
  (requests, handle acquisition, handle release, data-channel sends) are
  recorded in an effect trace.
-/

/-- Model of a parsed JSON / JavaScript value. `null` also stands for JS
`undefined` (see the conflation note above). Numbers are exact rationals,
which covers every numeric literal appearing in the source
(0.5, 300, 200, Unix timestamps). -/
inductive JValue where
  | null
  | bool (b : Bool)
  | num (q : Rat)
  | str (s : String)
  | arr (elems : List JValue)
  | obj (fields : List (String × JValue))

/-- JS property access `v.k` (and `v?.k`): a field lookup on an object,
`undefined` (here `.null`) on everything else. -/
def getF : JValue → String → JValue
  | .obj fields, k =>
    match fields.find? (fun p => p.1 == k) with
    | some p => p.2
    | none => .null
  | _, _ => .null

/-- JS index access `v?.[0]`: first element of an array, the "0" property
of an object, `undefined` otherwise. -/
def idx0 : JValue → JValue
  | .arr (x :: _) => x
  | .obj fields =>
    match fields.find? (fun p => p.1 == "0") with
    | some p => p.2
    | none => .null
  | _ => .null

/-- JS truthiness of a value: `null`/`undefined`, `false`, `0` and `""`
are falsy; every other value (including any array or object) is truthy. -/
def truthy : JValue → Bool
  | .null => false
  | .bool b => b
  | .num q => q != 0
  | .str s => s != ""
  | .arr _ => true
  | .obj _ => true

/-- JS `a || b`. -/
def jsOr (a b : JValue) : JValue :=
  if truthy a then a else b

/-- View a value as a string, for `===` comparison against string literals
(a non-string value compares unequal to every string case). -/
def asStr : JValue → Option String
  | .str s => some s
  | _ => none

/-- The four scenario keys of `roleplayScenarios` in
src/lib/agents/roleplayAgent.ts. -/
inductive ScenarioKey where
  | restaurant
  | customerSupport
  | directions
  | shopping

/-- One scenario record of `roleplayScenarios`. -/
structure Scenario where
  name : String
  description : String
  instructions : String

/-- The `roleplayScenarios` table of src/lib/agents/roleplayAgent.ts. -/
def roleplayScenarios : ScenarioKey → Scenario
  | .restaurant =>
    { name := "レストラン"
      description := "レストランでの注文練習"
      instructions := "あなたは日本のレストランのウェイトレスです。丁寧で親切な接客を心がけてください。\nお客様からの注文を受けたり、メニューの説明をしたりします。\n日本語で応答し、必要に応じて料理の説明や推薦をしてください。\n相手が日本語学習者であることを理解し、ゆっくりはっきりと話してください。" }
  | .customerSupport =>
    { name := "カスタマーサポート"
      description := "電話でのサポート対応練習"
      instructions := "あなたは日本の会社のカスタマーサポート担当者です。\nお客様からの問い合わせに丁寧に対応してください。\n製品の不具合、返品、交換などの対応をします。\n日本語で応答し、ビジネスマナーを守ってください。\n相手が日本語学習者であることを理解し、分かりやすく説明してください。" }
  | .directions =>
    { name := "道案内"
      description := "道を尋ねる・教える練習"
      instructions := "あなたは日本の街で道案内をする親切な地元の人です。\n観光客や迷っている人に道を教えてください。\n駅、観光地、お店への行き方を説明します。\n日本語で応答し、必要に応じて目印や所要時間も教えてください。\n相手が日本語学習者であることを理解し、簡単な言葉で説明してください。" }
  | .shopping =>
    { name := "買い物"
      description := "お店での買い物練習"
      instructions := "あなたは日本のお店の店員です。\nお客様の買い物をサポートしてください。\n商品の説明、サイズの確認、値段の案内などを行います。\n日本語で応答し、丁寧な接客言葉を使ってください。\n相手が日本語学習者であることを理解し、ゆっくり話してください。" }

/-- One entry of the transcript log (`history` in `SessionState`). The
`role` and `content` fields hold the raw JS values the handlers store
(in well-formed traffic both are strings); `timestamp` models
`new Date()` as an abstract instant. -/
structure HistoryEntry where
  role : JValue
  content : JValue
  timestamp : Nat

/-- The `SessionState` React state shared by every hook variant:
`{ isConnecting, isConnected, error, isMuted, scenario, history }`.
`error = none` models `error: null`. -/
structure SessionState where
  isConnecting : Bool
  isConnected : Bool
  error : Option JValue
  isMuted : Bool
  scenario : Option ScenarioKey
  history : List HistoryEntry

/-- The initial state passed to `useState` in every hook variant. -/
def initialState : SessionState :=
  { isConnecting := false
    isConnected := false
    error := none
    isMuted := false
    scenario := none
    history := [] }

/-- The `dc.onmessage` dispatcher of useRealtimeFinal.ts (lines 143-218),
applied to an already-parsed JSON value `data`. Each `case` of the
`switch (data.type)` is translated branch by branch. -/
def handleDataFinal (data : JValue) (now : Nat) (st : SessionState) : SessionState :=
  match asStr (getF data "type") with
  | some "session.created" => st
  | some "session.updated" => st
  | some "conversation.item.created" =>
    let item := getF data "item"
    if truthy item && (asStr (getF item "type") == some "message") then
      let content := idx0 (getF item "content")
      let text := jsOr (getF content "transcript") (jsOr (getF content "text") (.str ""))
      if truthy text then
        { st with history := st.history ++ [⟨getF item "role", text, now⟩] }
      else st
    else st
  | some "input_audio_transcription.completed" =>
    if truthy (getF data "transcript") then
      { st with history := st.history ++ [⟨.str "user", getF data "transcript", now⟩] }
    else st
  | some "response.text.delta" => st
  | some "response.audio_transcript.delta" => st
  | some "response.text.done" | some "response.audio_transcript.done" =>
    let text := jsOr (getF data "text") (getF data "transcript")
    if truthy text then
      { st with history := st.history ++ [⟨.str "assistant", text, now⟩] }
    else st
  | some "error" =>
    { st with error := some (jsOr (getF (getF data "error") "message") (.str "Server error")) }
  | _ => st

/-- An inbound control-channel frame: either text that `JSON.parse`
rejects, or a successfully parsed JSON value. -/
inductive InFrame where
  | invalid (raw : String)
  | json (data : JValue)

/-- The whole `dc.onmessage` handler of useRealtimeFinal.ts including its
`try { JSON.parse ... } catch { console.error ... }` wrapper: a frame that
fails to parse is logged and dropped, leaving the state untouched. -/
def handleFrameFinal : InFrame → Nat → SessionState → SessionState
  | .invalid _, _, st => st
  | .json data, now, st => handleDataFinal data now st

/-- The `dc.onmessage` dispatcher of useRealtimeWebRTC.ts (lines 169-229),
applied to an already-parsed JSON value `message`. Note it reads
`content?.[0]?.text` before `content?.[0]?.transcript` (the reverse of the
Final variant) and additionally requires `message.item.role` to be truthy. -/
def handleDataWebRTC (message : JValue) (now : Nat) (st : SessionState) : SessionState :=
  match asStr (getF message "type") with
  | some "session.created" => st
  | some "session.updated" => st
  | some "conversation.item.created" =>
    let item := getF message "item"
    if truthy item && (asStr (getF item "type") == some "message") then
      let content := jsOr (getF (idx0 (getF item "content")) "text")
        (jsOr (getF (idx0 (getF item "content")) "transcript") (.str ""))
      if truthy content && truthy (getF item "role") then
        { st with history := st.history ++ [⟨getF item "role", content, now⟩] }
      else st
    else st
  | some "response.audio_transcript.delta" => st
  | some "response.audio_transcript.done" =>
    if truthy (getF message "transcript") then
      { st with history := st.history ++ [⟨.str "assistant", getF message "transcript", now⟩] }
    else st
  | some "error" =>
    { st with error := some (jsOr (getF (getF message "error") "message") (.str "Server error")) }
  | _ => st

/-- The `dc.onmessage` handler of useRealtimeWebRTC.ts including its
parse-failure catch. -/
def handleFrameWebRTC : InFrame → Nat → SessionState → SessionState
  | .invalid _, _, st => st
  | .json data, now, st => handleDataWebRTC data now st

/-- An outbound local audio track (`MediaStreamTrack`): `enabled` is the
in-place mute switch `toggleMute` flips. -/
structure MediaTrack where
  enabled : Bool

/-- A `MediaStream` handle as held in `streamRef`; the streams the hooks
acquire with `getUserMedia({ audio: ... })` carry audio tracks only. -/
structure StreamHandle where
  audioTracks : List MediaTrack

/-- `RTCDataChannel.readyState`. -/
inductive DCState where
  | connecting
  | openState
  | closing
  | closedState

/-- An `RTCDataChannel` handle as held in `dcRef`. -/
structure DCHandle where
  readyState : DCState

/-- An `HTMLAudioElement` playback sink as held in `audioRef`;
`attached` records whether `srcObject` is set. -/
structure AudioHandle where
  attached : Bool

/-- The four mutable refs of each hook variant:
`pcRef`, `dcRef`, `audioRef`, `streamRef` (all `null` initially). -/
structure Refs where
  pc : Option Unit
  dc : Option DCHandle
  audio : Option AudioHandle
  stream : Option StreamHandle

/-- All four refs `null`, the state before any connection attempt. -/
def emptyRefs : Refs :=
  { pc := none, dc := none, audio := none, stream := none }

/-- One observable side effect of a `connect()` / `disconnect()` call:
an outbound request, a handle acquisition, a control-channel send, or a
handle release. -/
inductive Effect where
  | tokenRequest
  | createPeerConnection
  | createAudioElement
  | mediaRequest
  | addTrack (count : Nat)
  | createDataChannel (label : String) (ordered : Bool)
  | createOffer
  | negotiationRequest (bearer : String) (model : String)
  | setRemoteDescription (sdp : String)
  | dcSend (msg : JValue)
  | closeDataChannel
  | closePeerConnection
  | stopTracks
  | detachSink
  | removeAudioElement

/-- Result of one `connect()` call: the session state and refs when the
call returns, plus the trace of effects it performed, in order. -/
structure ConnectResult where
  state : SessionState
  refs : Refs
  trace : List Effect

/-- The shared `catch (error)` block of `connect()` in
useRealtimeFinal.ts / useRealtimeFixed.ts / useRealtimeWebRTC.ts: record
the error message and clear the connecting flag, then close the peer
connection, stop the media tracks and remove the audio element for
whichever of those refs are set, nulling them. The data channel ref is
not touched by this block (only `disconnect()` closes it explicitly). -/
def connectCatch (msg : String) (st : SessionState) (r : Refs) (tr : List Effect) :
    ConnectResult :=
  { state := { st with isConnecting := false, error := some (.str msg) }
    refs := { r with pc := none, stream := none, audio := none }
    trace := tr
      ++ (if r.pc.isSome then [Effect.closePeerConnection] else [])
      ++ (if r.stream.isSome then [Effect.stopTracks] else [])
      ++ (if r.audio.isSome then [Effect.removeAudioElement] else []) }

/-- Ephemeral-key extraction of useRealtimeFinal.ts (lines 51-58):
accept `client_secret.value` when truthy, else a plain string
`client_secret`, else fail with the explicit throw's message. A truthy
non-string `value` makes the subsequent `ephemeralKey.substring(0, 20)`
debug call raise a TypeError, normalized here into the failure branch
with the TypeError's message. -/
def ephemeralKeyFinal (sessionData : JValue) : Except String String :=
  let cs := getF sessionData "client_secret"
  if truthy (getF cs "value") then
    match getF cs "value" with
    | .str s => .ok s
    | _ => .error "ephemeralKey.substring is not a function"
  else
    match cs with
    | .str s => .ok s
    | _ => .error "Invalid token format received from server"

/-- The environment one useRealtimeFinal.ts `connect()` call runs in:
the `/api/session` response (`.error body` for a non-ok response, whose
body text feeds the thrown message), the `getUserMedia` outcome (`.error
message` on permission denial), `pc.localDescription` after the ICE
gathering wait (`none` means no usable offer), and the negotiation
endpoint's response (`.error (status, body)` for non-2xx). -/
structure EnvFinal where
  tokenResp : Except String JValue
  media : Except String StreamHandle
  localSdp : Option String
  negotiation : Except (Nat × String) String

/-- The model identifier hard-coded in the hooks. -/
def realtimeModel : String := "gpt-4o-realtime-preview-2025-06-03"

/-- The `connect` function of useRealtimeFinal.ts (lines 33-308) as a
pure function of its environment. Step order as in the source: set the
connecting flag, fetch the token, extract the key, create the peer
connection, create the playback element, request the microphone, add the
tracks, create the ordered data channel labelled "oai-events", create the
offer and wait for ICE gathering, then POST the offer to the negotiation
endpoint with the bearer key, and apply the returned answer. Any failure
goes through `connectCatch`. On the non-2xx negotiation branch the inner
`try`'s own throws are caught by its `catch (e)`, so the surfaced message
is always the generic `API Error: <status> - <body>`. Note no branch
inspects the previous state: there is no busy-state guard. -/
def connectFinal (env : EnvFinal) (scenario : ScenarioKey) (st0 : SessionState)
    (r0 : Refs) : ConnectResult :=
  let st := { st0 with isConnecting := true, error := none, scenario := some scenario }
  match env.tokenResp with
  | .error body => connectCatch ("Failed to get token: " ++ body) st r0 [.tokenRequest]
  | .ok sessionData =>
    match ephemeralKeyFinal sessionData with
    | .error msg => connectCatch msg st r0 [.tokenRequest]
    | .ok key =>
      let r := { r0 with pc := some (), audio := some { attached := false } }
      let tr := [Effect.tokenRequest, .createPeerConnection, .createAudioElement]
      match env.media with
      | .error msg => connectCatch msg st r (tr ++ [.mediaRequest])
      | .ok stream =>
        let r := { r with stream := some stream, dc := some { readyState := .connecting } }
        let tr := tr ++ [Effect.mediaRequest, .addTrack stream.audioTracks.length,
          .createDataChannel "oai-events" true, .createOffer]
        match env.localSdp with
        | none => connectCatch "Failed to create SDP offer" st r tr
        | some _sdp =>
          match env.negotiation with
          | .error (status, body) =>
            connectCatch ("API Error: " ++ toString status ++ " - " ++ body) st r
              (tr ++ [.negotiationRequest key realtimeModel])
          | .ok answerSdp =>
            { state := st
              refs := r
              trace := tr ++ [.negotiationRequest key realtimeModel,
                .setRemoteDescription answerSdp] }

/-- The environment one useRealtimeFixed.ts `connect()` call runs in.
`nowUnix` is `Math.floor(Date.now() / 1000)` at the expiry check. -/
structure EnvFixed where
  nowUnix : Rat
  tokenResp : Except String JValue
  media : Except String StreamHandle
  negotiation : Except (Nat × String) String

/-- The `connect` function of useRealtimeFixed.ts (lines 32-250) as a
pure function of its environment. It differs from the Final variant in:
error-message wording, reading `client_secret.value` without a shape
check (a missing `client_secret` raises a TypeError at the read, a
non-string key at the `substring` debug call; both are normalized as the
TypeError message), the expiry validation
`if (expiresAt - currentUnixTime <= 0) throw` placed before any
peer-connection, media or negotiation work, and no ICE-gathering wait.
A non-numeric `expires_at` makes `expiresAt - currentUnixTime` NaN, whose
`<= 0` comparison is false, so the check passes. On the non-2xx
negotiation branch the inner expired-token throw is swallowed by its own
`catch (e) { /* ignore */ }`, so the surfaced message is always the
generic `WebRTC接続失敗: <status> - <body>`. -/
def connectFixed (env : EnvFixed) (scenario : ScenarioKey) (st0 : SessionState)
    (r0 : Refs) : ConnectResult :=
  let st := { st0 with isConnecting := true, error := none, scenario := some scenario }
  match env.tokenResp with
  | .error body => connectCatch ("Token fetch failed: " ++ body) st r0 [.tokenRequest]
  | .ok sessionData =>
    match getF sessionData "client_secret" with
    | .null =>
      connectCatch "Cannot read properties of undefined (reading 'value')" st r0
        [.tokenRequest]
    | cs =>
      match getF cs "value" with
      | .str key =>
        let expired :=
          match getF cs "expires_at" with
          | .num e => decide (e - env.nowUnix ≤ 0)
          | _ => false
        if expired then
          connectCatch "エフェメラルキーが期限切れです。システム時刻を確認してください。" st r0
            [.tokenRequest]
        else
          let r := { r0 with pc := some (), audio := some { attached := false } }
          let tr := [Effect.tokenRequest, .createPeerConnection, .createAudioElement]
          match env.media with
          | .error msg => connectCatch msg st r (tr ++ [.mediaRequest])
          | .ok stream =>
            let r := { r with stream := some stream, dc := some { readyState := .connecting } }
            let tr := tr ++ [Effect.mediaRequest, .addTrack stream.audioTracks.length,
              .createDataChannel "oai-events" true, .createOffer]
            match env.negotiation with
            | .error (status, body) =>
              connectCatch ("WebRTC接続失敗: " ++ toString status ++ " - " ++ body) st r
                (tr ++ [.negotiationRequest key realtimeModel])
            | .ok answerSdp =>
              { state := st
                refs := r
                trace := tr ++ [.negotiationRequest key realtimeModel,
                  .setRemoteDescription answerSdp] }
      | _ => connectCatch "ephemeralKey.substring is not a function" st r0 [.tokenRequest]

/-- The `disconnect` function of useRealtimeFinal.ts (lines 310-337),
identical in every variant that holds the four refs: close the data
channel, close the peer connection, stop every media track, detach and
remove the playback element — each only if its ref is set — null all
refs, then clear `isConnected`, `scenario` and `history`. The
`isConnecting` and `error` fields are not touched. -/
def disconnectFinal (st : SessionState) (r : Refs) :
    SessionState × Refs × List Effect :=
  let tr := (if r.dc.isSome then [Effect.closeDataChannel] else [])
    ++ (if r.pc.isSome then [Effect.closePeerConnection] else [])
    ++ (if r.stream.isSome then [Effect.stopTracks] else [])
    ++ (if r.audio.isSome then [Effect.detachSink, Effect.removeAudioElement] else [])
  ({ st with isConnected := false, scenario := none, history := [] },
    emptyRefs, tr)

/-- The `input_audio_buffer.clear` frame `toggleMute` sends when muting. -/
def bufferClearMsg : JValue :=
  .obj [("type", .str "input_audio_buffer.clear")]

/-- Whether `dcRef.current && dcRef.current.readyState === 'open'`. -/
def dcIsOpen : Option DCHandle → Bool
  | some d =>
    match d.readyState with
    | .openState => true
    | _ => false
  | none => false

/-- The `toggleMute` function of useRealtimeWebRTC.ts (lines 366-382):
no-op without a stream or without an audio track; otherwise flip the
mute flag, set the first audio track's `enabled` in place, and — on the
transition into muted only, with the data channel open — send one
`input_audio_buffer.clear` frame. Returns the new state, the new refs
and the frames sent. -/
def toggleMuteWebRTC (st : SessionState) (r : Refs) :
    SessionState × Refs × List JValue :=
  match r.stream with
  | none => (st, r, [])
  | some s =>
    match s.audioTracks with
    | [] => (st, r, [])
    | t :: rest =>
      let newMuted := !st.isMuted
      let r' := { r with stream := some { audioTracks := { t with enabled := !newMuted } :: rest } }
      let st' := { st with isMuted := newMuted }
      let msgs := if newMuted && dcIsOpen r.dc then [bufferClearMsg] else []
      (st', r', msgs)

/-- The first audio track's `enabled` flag, if any. -/
def firstAudioEnabled (r : Refs) : Option Bool :=
  match r.stream with
  | some s =>
    match s.audioTracks with
    | t :: _ => some t.enabled
    | [] => none
  | none => none

/-- The `session.update` configuration message built and sent inside
`dc.onopen` of useRealtimeFinal.ts (lines 122-140). -/
def sessionUpdateFinal (scenario : ScenarioKey) : JValue :=
  .obj [("type", .str "session.update"),
    ("session", .obj [
      ("instructions", .str (roleplayScenarios scenario).instructions),
      ("voice", .str "alloy"),
      ("input_audio_transcription", .obj [("model", .str "whisper-1")]),
      ("turn_detection", .obj [
        ("type", .str "server_vad"),
        ("threshold", .num 0.5),
        ("prefix_padding_ms", .num 300),
        ("silence_duration_ms", .num 200)])])]

/-- The `dc.onopen` handler of useRealtimeFinal.ts (lines 114-141):
clear the connecting flag, set the connected flag, and send exactly the
one `session.update` configuration frame. -/
def onOpenFinal (scenario : ScenarioKey) (st : SessionState) :
    SessionState × List JValue :=
  ({ st with isConnecting := false, isConnected := true },
    [sessionUpdateFinal scenario])

/-- One control-channel callback delivery after `connect()` has
installed the handlers: the channel's open event, or an inbound frame
at instant `t`. -/
inductive ChanEvent where
  | opened
  | message (t : Nat) (frame : InFrame)

/-- Dispatch one channel event through the handlers useRealtimeFinal.ts
installed, returning the new state and the frames sent. -/
def stepFinal (scenario : ScenarioKey) (st : SessionState) :
    ChanEvent → SessionState × List JValue
  | .opened => onOpenFinal scenario st
  | .message t f => (handleFrameFinal f t st, [])

/-- Run a sequence of channel events, concatenating the sent frames in
order. -/
def runFinal (scenario : ScenarioKey) (st : SessionState) :
    List ChanEvent → SessionState × List JValue
  | [] => (st, [])
  | ev :: rest =>
    let r1 := stepFinal scenario st ev
    let r2 := runFinal scenario r1.1 rest
    (r2.1, r1.2 ++ r2.2)

/-- Whether a channel event is the open event. -/
def isOpenEvent : ChanEvent → Bool
  | .opened => true
  | _ => false

/-- Number of open events in a delivery sequence (a channel that opens
fires the event once; a successful connect therefore yields one). -/
def countOpens (evs : List ChanEvent) : Nat :=
  evs.countP (fun ev => isOpenEvent ev)

/-- The control-channel frames sent inside an effect trace. -/
def dcSendsOf (tr : List Effect) : List JValue :=
  tr.filterMap (fun e =>
    match e with
    | .dcSend m => some m
    | _ => none)

/-- Effect classifiers used by the claim statements. -/
def isNetworkOrAcquisition : Effect → Bool
  | .tokenRequest => true
  | .createPeerConnection => true
  | .createAudioElement => true
  | .mediaRequest => true
  | .addTrack _ => true
  | .createDataChannel _ _ => true
  | .createOffer => true
  | .negotiationRequest _ _ => true
  | .setRemoteDescription _ => true
  | .dcSend _ => true
  | _ => false

def isNegotiationReq : Effect → Bool
  | .negotiationRequest _ _ => true
  | _ => false

def isMediaReq : Effect → Bool
  | .mediaRequest => true
  | _ => false

def isClosePC : Effect → Bool
  | .closePeerConnection => true
  | _ => false

def isCloseDC : Effect → Bool
  | .closeDataChannel => true
  | _ => false

def isStopTracks : Effect → Bool
  | .stopTracks => true
  | _ => false

def isDetachSink : Effect → Bool
  | .detachSink => true
  | _ => false

def isRemoveAudioEl : Effect → Bool
  | .removeAudioElement => true
  | _ => false

/-- A well-behaved environment for a useRealtimeFinal.ts `connect` call:
token granted, microphone granted, offer available, negotiation accepted. -/
def goodEnvFinal : EnvFinal :=
  { tokenResp := .ok (.obj [("client_secret", .obj [("value", .str "ek-test")])])
    media := .ok { audioTracks := [{ enabled := true }] }
    localSdp := some "v=0"
    negotiation := .ok "v=0-answer" }

/-- A session state in the Connecting phase (a `connect` call in flight). -/
def busyConnectingState : SessionState :=
  { isConnecting := true, isConnected := false, error := none,
    isMuted := false, scenario := some .restaurant, history := [] }

/-- Refs of a fully established session: peer connection, open data
channel, attached playback element and a live audio track. -/
def fullRefs : Refs :=
  { pc := some ()
    dc := some { readyState := .openState }
    audio := some { attached := true }
    stream := some { audioTracks := [{ enabled := true }] } }

/-- Environment of a useRealtimeFixed.ts `connect` call holding a
credential whose expiry equals the local clock (already expired in the
sense of the check `expiresAt - currentUnixTime <= 0`). -/
def expiredEnvFixed : EnvFixed :=
  { nowUnix := 100
    tokenResp := .ok (.obj [("client_secret",
      .obj [("value", .str "ek-test"), ("expires_at", .num 100)])])
    media := .ok { audioTracks := [{ enabled := true }] }
    negotiation := .ok "v=0-answer" }

/-- Environment of a useRealtimeFinal.ts `connect` call where everything
succeeds up to the negotiation request, which the endpoint rejects with
status 401 and an error body. -/
def rejectedEnvFinal : EnvFinal :=
  { tokenResp := .ok (.obj [("client_secret", .obj [("value", .str "ek-test")])])
    media := .ok { audioTracks := [{ enabled := true }] }
    localSdp := some "v=0"
    negotiation := .error (401, "token expired") }

/-- Inbound frame: `conversation.item.created` carrying a finalized user
message whose first content part has transcript こんにちは. -/
def itemCreatedUserFrame : InFrame :=
  .json (.obj [("type", .str "conversation.item.created"),
    ("item", .obj [("type", .str "message"), ("role", .str "user"),
      ("content", .arr [.obj [("transcript", .str "こんにちは")]])])])

/-- Inbound frame: `response.audio_transcript.done` with transcript
いらっしゃいませ. -/
def assistantDoneFrame : InFrame :=
  .json (.obj [("type", .str "response.audio_transcript.done"),
    ("transcript", .str "いらっしゃいませ")])

/-- An active session with an empty transcript log. -/
def activeEmptyState : SessionState :=
  { isConnecting := false, isConnected := true, error := none,
    isMuted := false, scenario := some .restaurant, history := [] }

/-- The catch block's trace keeps exactly the network / acquisition
effects of the trace accumulated before the failure (its own additions
are all releases). -/
theorem connectCatch_filter_net (msg : String) (st : SessionState) (r : Refs)
    (tr : List Effect) :
    (connectCatch msg st r tr).trace.filter (fun e => isNetworkOrAcquisition e)
      = tr.filter (fun e => isNetworkOrAcquisition e) := by
  simp only [connectCatch, List.filter_append]
  cases hp : r.pc.isSome <;> cases hs : r.stream.isSome <;> cases ha : r.audio.isSome <;>
    simp [isNetworkOrAcquisition]

/-- The catch block adds no negotiation request to the trace. -/
theorem connectCatch_countP_neg (msg : String) (st : SessionState) (r : Refs)
    (tr : List Effect) :
    (connectCatch msg st r tr).trace.countP (fun e => isNegotiationReq e)
      = tr.countP (fun e => isNegotiationReq e) := by
  simp only [connectCatch, List.countP_append]
  cases hp : r.pc.isSome <;> cases hs : r.stream.isSome <;> cases ha : r.audio.isSome <;>
    simp [isNegotiationReq]

/-- C1: for every credential whose expiry is less than or equal to the
current local clock time, `connect` of useRealtimeFixed.ts (the variant
implementing step 1's expiry validation, cited by the claim) fails with
the expired-credential error, leaves the session disconnected, and
issues zero requests to the negotiation endpoint: the only network or
acquisition effect in the whole trace is the credential request itself,
so the expiry is validated before any transport work begins. -/
theorem c1_expired_credential_blocks_connect
    (env : EnvFixed) (scenario : ScenarioKey) (st : SessionState) (r : Refs)
    (d : JValue) (key : String) (e : Rat)
    (htok : env.tokenResp = .ok d)
    (hkey : getF (getF d "client_secret") "value" = .str key)
    (hexp : getF (getF d "client_secret") "expires_at" = .num e)
    (hle : e ≤ env.nowUnix) :
    (connectFixed env scenario st r).state.error
      = some (.str "エフェメラルキーが期限切れです。システム時刻を確認してください。")
    ∧ (connectFixed env scenario st r).state.isConnecting = false
    ∧ (connectFixed env scenario st r).state.isConnected = st.isConnected
    ∧ (connectFixed env scenario st r).trace.filter
        (fun eff => isNetworkOrAcquisition eff) = [Effect.tokenRequest]
    ∧ (connectFixed env scenario st r).trace.countP
        (fun eff => isNegotiationReq eff) = 0 := by
  have hdec : decide (e - env.nowUnix ≤ 0) = true :=
    decide_eq_true (sub_nonpos.mpr hle)
  rcases hcs : getF d "client_secret" with _ | b | q | s | el | fl
  · rw [hcs] at hkey
    exact absurd hkey (by simp [getF])
  · rw [hcs] at hkey
    exact absurd hkey (by simp [getF])
  · rw [hcs] at hkey
    exact absurd hkey (by simp [getF])
  · rw [hcs] at hkey
    exact absurd hkey (by simp [getF])
  · rw [hcs] at hkey
    exact absurd hkey (by simp [getF])
  · rw [hcs] at hkey hexp
    simp only [connectFixed, htok, hcs, hkey, hexp, hdec, if_true]
    refine ⟨rfl, rfl, rfl, ?_, ?_⟩
    · rw [connectCatch_filter_net]
      simp [isNetworkOrAcquisition]
    · rw [connectCatch_countP_neg]
      simp [isNegotiationReq]

/-- Witness for C1: a concrete credential whose expiry equals the local
clock is rejected before any transport or negotiation work. -/
theorem c1_witness :
    (connectFixed expiredEnvFixed .restaurant initialState emptyRefs).state.error
      = some (.str "エフェメラルキーが期限切れです。システム時刻を確認してください。")
    ∧ (connectFixed expiredEnvFixed .restaurant initialState emptyRefs).state.isConnecting
      = false
    ∧ (connectFixed expiredEnvFixed .restaurant initialState emptyRefs).state.isConnected
      = initialState.isConnected
    ∧ (connectFixed expiredEnvFixed .restaurant initialState emptyRefs).trace.filter
        (fun eff => isNetworkOrAcquisition eff) = [Effect.tokenRequest]
    ∧ (connectFixed expiredEnvFixed .restaurant initialState emptyRefs).trace.countP
        (fun eff => isNegotiationReq eff) = 0 :=
  c1_expired_credential_blocks_connect expiredEnvFixed .restaurant initialState emptyRefs
    (.obj [("client_secret", .obj [("value", .str "ek-test"), ("expires_at", .num 100)])])
    "ek-test" 100 rfl rfl rfl le_rfl

/-- C2 counterexample: with a session already in the Connecting phase, a
second `connect` call on useRealtimeFinal.ts does not fail fast — it
completes with no error recorded (in particular no AlreadyConnecting or
AlreadyConnected failure) and performs a second media acquisition and a
second negotiation request. -/
theorem c2_counterexample :
    (connectFinal goodEnvFinal .restaurant busyConnectingState emptyRefs).trace.countP
      (fun e => isMediaReq e) = 1
    ∧ (connectFinal goodEnvFinal .restaurant busyConnectingState emptyRefs).trace.countP
      (fun e => isNegotiationReq e) = 1
    ∧ (connectFinal goodEnvFinal .restaurant busyConnectingState emptyRefs).state.error
      = none :=
  ⟨rfl, rfl, rfl⟩

/-- C2 (amended): `connect` of useRealtimeFinal.ts has no busy-state
guard at all — the effect trace, the recorded error and the resulting
connecting flag are independent of the session state it is called in, so
a second call while Connecting or Active proceeds exactly as a call from
Idle (including a fresh media acquisition and a fresh negotiation
request) instead of failing fast with AlreadyConnecting or
AlreadyConnected. -/
theorem c2_amended_no_busy_guard
    (env : EnvFinal) (scenario : ScenarioKey) (st1 st2 : SessionState) (r : Refs) :
    (connectFinal env scenario st1 r).trace = (connectFinal env scenario st2 r).trace
    ∧ (connectFinal env scenario st1 r).state.error
      = (connectFinal env scenario st2 r).state.error
    ∧ (connectFinal env scenario st1 r).state.isConnecting
      = (connectFinal env scenario st2 r).state.isConnecting := by
  refine ⟨?_, ?_, ?_⟩ <;>
    (unfold connectFinal
     repeat' split <;> try rfl)

/-- C3 counterexample: `disconnect` called during the Connecting phase
leaves the `isConnecting` flag set, so the session phase after the call
is not Idle. -/
theorem c3_counterexample :
    ((disconnectFinal busyConnectingState emptyRefs).1).isConnecting = true := rfl

/-- C3 (amended): after `disconnect` the connected flag is cleared, the
scenario is cleared, the transcript log is empty, every ref is nulled
and a close/stop/detach/remove effect is emitted for every handle that
was held; but the `isConnecting` flag is left unchanged, so the phase is
guaranteed to be Idle only when the session was not in the Connecting
phase (from Idle or Active the phase afterwards is Idle). -/
theorem c3_amended_disconnect_releases
    (st : SessionState) (r : Refs) :
    (disconnectFinal st r).1.isConnected = false
    ∧ (disconnectFinal st r).1.scenario = none
    ∧ (disconnectFinal st r).1.history = []
    ∧ (disconnectFinal st r).1.isConnecting = st.isConnecting
    ∧ (disconnectFinal st r).2.1 = emptyRefs
    ∧ (r.dc.isSome → (disconnectFinal st r).2.2.any (fun e => isCloseDC e) = true)
    ∧ (r.pc.isSome → (disconnectFinal st r).2.2.any (fun e => isClosePC e) = true)
    ∧ (r.stream.isSome → (disconnectFinal st r).2.2.any (fun e => isStopTracks e) = true)
    ∧ (r.audio.isSome →
        (disconnectFinal st r).2.2.any (fun e => isDetachSink e) = true
        ∧ (disconnectFinal st r).2.2.any (fun e => isRemoveAudioEl e) = true)
    ∧ (st.isConnecting = false →
        (disconnectFinal st r).1.isConnecting = false
        ∧ (disconnectFinal st r).1.isConnected = false) := by
  rcases r with ⟨pc, dc, audio, stream⟩
  cases pc <;> cases dc <;> cases audio <;> cases stream <;>
    simp [disconnectFinal, isCloseDC, isClosePC, isStopTracks, isDetachSink,
      isRemoveAudioEl]

/-- Witness for C3 (amended) at a fully established session being torn
down from the Connecting phase. -/
theorem c3_amended_witness :
    (disconnectFinal busyConnectingState fullRefs).1.isConnected = false
    ∧ (disconnectFinal busyConnectingState fullRefs).1.history = []
    ∧ (disconnectFinal busyConnectingState fullRefs).2.2.any
        (fun e => isCloseDC e) = true
    ∧ (disconnectFinal busyConnectingState fullRefs).2.2.any
        (fun e => isClosePC e) = true
    ∧ (disconnectFinal busyConnectingState fullRefs).2.2.any
        (fun e => isStopTracks e) = true
    ∧ (disconnectFinal busyConnectingState fullRefs).2.2.any
        (fun e => isRemoveAudioEl e) = true := by
  obtain ⟨h1, h2, h3, h4, h5, h6, h7, h8, h9, h10⟩ :=
    c3_amended_disconnect_releases busyConnectingState fullRefs
  exact ⟨h1, h3, h6 rfl, h7 rfl, h8 rfl, (h9 rfl).2⟩

/-- Every frame the installed handlers send is the one configuration
message, and it is sent exactly at channel-open events: over any event
sequence the sent frames are one `session.update` per open event. -/
theorem runFinal_sends (scenario : ScenarioKey) (evs : List ChanEvent) :
    ∀ (st : SessionState),
      (runFinal scenario st evs).2
        = List.replicate (countOpens evs) (sessionUpdateFinal scenario) := by
  induction evs with
  | nil => intro st; rfl
  | cons ev rest ih =>
    intro st
    cases ev with
    | opened =>
      simp [runFinal, stepFinal, onOpenFinal, countOpens, List.countP_cons, isOpenEvent,
        ih, List.replicate_succ]
    | message t f =>
      simp [runFinal, stepFinal, countOpens, List.countP_cons, isOpenEvent, ih]

/-- A prefix of the event sequence containing no open event contains no
open event after `takeWhile`. -/
theorem countOpens_takeWhile (evs : List ChanEvent) :
    countOpens (evs.takeWhile (fun ev => !isOpenEvent ev)) = 0 := by
  induction evs with
  | nil => rfl
  | cons ev rest ih =>
    cases hev : isOpenEvent ev <;>
      simp_all [countOpens, List.takeWhile_cons, List.countP_cons, hev]

/-- The `connect` body of useRealtimeFinal.ts itself never sends on the
control channel (the configuration send lives only in the `dc.onopen`
callback). -/
theorem connectFinal_no_sends (env : EnvFinal) (scenario : ScenarioKey)
    (st : SessionState) (r : Refs) :
    dcSendsOf (connectFinal env scenario st r).trace = [] := by
  simp only [connectFinal, connectCatch]
  repeat' split
  all_goals rfl

/-- C4: after a successful `connect` of useRealtimeFinal.ts — i.e. a run
in which the control channel reports open exactly once — exactly one
configuration message is sent: the `session.update` carrying the
selected scenario's instructions, the voice selection, the input
transcription model and the fixed turn-detection policy. It is sent only
at the open event, never before: the prefix of the run before any open
event sends nothing, and the `connect` body itself performs no
control-channel send. -/
theorem c4_single_config_after_open
    (scenario : ScenarioKey) (st : SessionState) (evs : List ChanEvent)
    (env : EnvFinal) (r : Refs)
    (hone : countOpens evs = 1) :
    (runFinal scenario st evs).2 = [sessionUpdateFinal scenario]
    ∧ (runFinal scenario st (evs.takeWhile (fun ev => !isOpenEvent ev))).2 = []
    ∧ dcSendsOf (connectFinal env scenario st r).trace = []
    ∧ getF (getF (sessionUpdateFinal scenario) "session") "instructions"
      = .str (roleplayScenarios scenario).instructions
    ∧ getF (getF (sessionUpdateFinal scenario) "session") "voice" = .str "alloy"
    ∧ getF (getF (getF (sessionUpdateFinal scenario) "session")
        "input_audio_transcription") "model" = .str "whisper-1"
    ∧ getF (getF (getF (sessionUpdateFinal scenario) "session")
        "turn_detection") "type" = .str "server_vad"
    ∧ getF (getF (getF (sessionUpdateFinal scenario) "session")
        "turn_detection") "threshold" = .num 0.5 := by
  refine ⟨?_, ?_, connectFinal_no_sends env scenario st r, rfl, rfl, rfl, rfl, rfl⟩
  · rw [runFinal_sends scenario evs st, hone, List.replicate_one]
  · rw [runFinal_sends scenario _ st, countOpens_takeWhile, List.replicate_zero]

/-- Witness for C4: a run whose channel opens once sends exactly the one
configuration message. -/
theorem c4_witness :
    (runFinal .restaurant initialState [ChanEvent.opened]).2
      = [sessionUpdateFinal .restaurant]
    ∧ dcSendsOf (connectFinal goodEnvFinal .restaurant initialState emptyRefs).trace
      = [] := by
  have h := c4_single_config_after_open .restaurant initialState [ChanEvent.opened]
    goodEnvFinal emptyRefs rfl
  exact ⟨h.1, h.2.2.1⟩

/-- C5: an inbound control-channel frame that is not valid JSON is
dropped by the handler's catch: the session state — phase flags, error,
transcript log, everything — is returned unchanged, and the handler
returns normally (the session is not terminated). -/
theorem c5_malformed_frame_noop (raw : String) (t : Nat) (st : SessionState) :
    handleFrameFinal (InFrame.invalid raw) t st = st := rfl

/-- C6: delivering item-created(role=user, transcript=こんにちは) and then
output-transcript-done(いらっしゃいませ) to an active session with an
empty transcript leaves exactly two entries, in arrival order: first the
user's こんにちは, then the assistant's いらっしゃいませ. -/
theorem c6_transcript_arrival_order :
    (handleFrameFinal assistantDoneFrame 2
      (handleFrameFinal itemCreatedUserFrame 1 activeEmptyState)).history
    = [⟨.str "user", .str "こんにちは", 1⟩,
       ⟨.str "assistant", .str "いらっしゃいませ", 2⟩] := rfl

/-- C7: on an active session (live stream with an audio track, open data
channel) that is not muted, `toggleMute` of useRealtimeWebRTC.ts into the
muted state followed immediately by `toggleMute` back leaves the outbound
audio track enabled and the mute flag cleared, and across the two calls
exactly one `input_audio_buffer.clear` frame is sent — on the muting
transition only. -/
theorem c7_double_toggle_one_clear
    (st : SessionState) (r : Refs) (t : MediaTrack) (rest : List MediaTrack)
    (hmuted : st.isMuted = false)
    (_hconnected : st.isConnected = true)
    (hstream : r.stream = some { audioTracks := t :: rest })
    (hdc : dcIsOpen r.dc = true) :
    (toggleMuteWebRTC st r).2.2 = [bufferClearMsg]
    ∧ (toggleMuteWebRTC (toggleMuteWebRTC st r).1 (toggleMuteWebRTC st r).2.1).2.2 = []
    ∧ (toggleMuteWebRTC st r).2.2
        ++ (toggleMuteWebRTC (toggleMuteWebRTC st r).1 (toggleMuteWebRTC st r).2.1).2.2
      = [bufferClearMsg]
    ∧ firstAudioEnabled
        (toggleMuteWebRTC (toggleMuteWebRTC st r).1 (toggleMuteWebRTC st r).2.1).2.1
      = some true
    ∧ (toggleMuteWebRTC (toggleMuteWebRTC st r).1 (toggleMuteWebRTC st r).2.1).1.isMuted
      = false := by
  simp [toggleMuteWebRTC, hstream, hmuted, hdc, firstAudioEnabled]

/-- Witness for C7 on a concrete active unmuted session. -/
theorem c7_witness :
    (toggleMuteWebRTC activeEmptyState fullRefs).2.2 = [bufferClearMsg]
    ∧ (toggleMuteWebRTC (toggleMuteWebRTC activeEmptyState fullRefs).1
        (toggleMuteWebRTC activeEmptyState fullRefs).2.1).2.2 = []
    ∧ firstAudioEnabled (toggleMuteWebRTC (toggleMuteWebRTC activeEmptyState fullRefs).1
        (toggleMuteWebRTC activeEmptyState fullRefs).2.1).2.1 = some true := by
  have h := c7_double_toggle_one_clear activeEmptyState fullRefs
    { enabled := true } [] rfl rfl rfl rfl
  exact ⟨h.1, h.2.1, h.2.2.2.1⟩

/-- C8: when the negotiation endpoint answers a useRealtimeFinal.ts
`connect` attempt with a non-success response, the catch path stops every
media track acquired in that attempt, closes the peer transport and
removes the playback sink (the corresponding refs are nulled), the call
returns with the phase Idle (neither connecting nor connected), and the
error state carries the failure cause built from the remote status and
body. Exactly one negotiation request was issued. -/
theorem c8_handshake_failure_releases
    (env : EnvFinal) (scenario : ScenarioKey) (st : SessionState) (r : Refs)
    (d : JValue) (key : String) (stream : StreamHandle) (sdp : String)
    (status : Nat) (body : String)
    (hconn : st.isConnected = false)
    (htok : env.tokenResp = .ok d)
    (hkey : ephemeralKeyFinal d = .ok key)
    (hmedia : env.media = .ok stream)
    (hsdp : env.localSdp = some sdp)
    (hneg : env.negotiation = .error (status, body)) :
    (connectFinal env scenario st r).state.isConnecting = false
    ∧ (connectFinal env scenario st r).state.isConnected = false
    ∧ (connectFinal env scenario st r).state.error
      = some (.str ("API Error: " ++ toString status ++ " - " ++ body))
    ∧ (connectFinal env scenario st r).refs.pc = none
    ∧ (connectFinal env scenario st r).refs.stream = none
    ∧ (connectFinal env scenario st r).refs.audio = none
    ∧ (connectFinal env scenario st r).trace.any (fun e => isStopTracks e) = true
    ∧ (connectFinal env scenario st r).trace.any (fun e => isClosePC e) = true
    ∧ (connectFinal env scenario st r).trace.any (fun e => isRemoveAudioEl e) = true
    ∧ (connectFinal env scenario st r).trace.countP (fun e => isNegotiationReq e) = 1 := by
  simp only [connectFinal, htok, hkey, hmedia, hsdp, hneg, connectCatch]
  simp [hconn, List.any_append, List.countP_append, List.countP_cons,
    isStopTracks, isClosePC, isRemoveAudioEl, isNegotiationReq]

/-- Witness for C8 at a concrete rejected handshake (status 401). -/
theorem c8_witness :
    (connectFinal rejectedEnvFinal .restaurant initialState emptyRefs).state.isConnecting
      = false
    ∧ (connectFinal rejectedEnvFinal .restaurant initialState emptyRefs).state.error
      = some (.str ("API Error: " ++ toString 401 ++ " - " ++ "token expired"))
    ∧ (connectFinal rejectedEnvFinal .restaurant initialState emptyRefs).trace.any
        (fun e => isStopTracks e) = true
    ∧ (connectFinal rejectedEnvFinal .restaurant initialState emptyRefs).trace.countP
        (fun e => isNegotiationReq e) = 1 := by
  have h := c8_handshake_failure_releases rejectedEnvFinal .restaurant initialState
    emptyRefs (.obj [("client_secret", .obj [("value", .str "ek-test")])]) "ek-test"
    { audioTracks := [{ enabled := true }] } "v=0" 401 "token expired"
    rfl rfl rfl rfl rfl rfl
  exact ⟨h.1, h.2.2.1, h.2.2.2.2.2.2.1, h.2.2.2.2.2.2.2.2.2⟩

/-- C9: `disconnect` of useRealtimeFinal.ts called on a session that is
already Idle — flags down, no scenario, empty transcript, no held
handles — is a complete no-op: the state (including error and mute flag),
the refs and the emitted effects are all unchanged / empty. -/
theorem c9_disconnect_idle_noop
    (st : SessionState)
    (h1 : st.isConnecting = false)
    (h2 : st.isConnected = false)
    (h3 : st.scenario = none)
    (h4 : st.history = []) :
    disconnectFinal st emptyRefs = (st, emptyRefs, []) := by
  rcases st with ⟨c, k, er, mu, sc, hi⟩
  simp_all [disconnectFinal, emptyRefs]

/-- Witness for C9 at the initial (Idle) state. -/
theorem c9_witness :
    disconnectFinal initialState emptyRefs = (initialState, emptyRefs, []) :=
  c9_disconnect_idle_noop initialState rfl rfl rfl rfl

set_option maxHeartbeats 1000000 in
/-- The history produced by one Final dispatch step extends the previous
history, and the appended suffix contains only entries with truthy
content. Stated with `List.drop` to keep the goal binder-free. -/
theorem handleDataFinal_drop (data : JValue) (t : Nat) (st : SessionState) :
    (handleDataFinal data t st).history
      = st.history ++ (handleDataFinal data t st).history.drop st.history.length
    ∧ ((handleDataFinal data t st).history.drop st.history.length).all
        (fun e => truthy e.content) = true := by
  unfold handleDataFinal
  repeat' split
  all_goals try dsimp only
  all_goals try split_ifs
  all_goals simp_all [List.drop_left]

set_option maxHeartbeats 1000000 in
/-- The history produced by one WebRTC dispatch step extends the previous
history, and the appended suffix contains only entries with truthy
content. -/
theorem handleDataWebRTC_drop (data : JValue) (t : Nat) (st : SessionState) :
    (handleDataWebRTC data t st).history
      = st.history ++ (handleDataWebRTC data t st).history.drop st.history.length
    ∧ ((handleDataWebRTC data t st).history.drop st.history.length).all
        (fun e => truthy e.content) = true := by
  unfold handleDataWebRTC
  repeat' split
  all_goals try dsimp only
  all_goals try split_ifs
  all_goals simp_all [List.drop_left]

/-- Every dispatch step of the Final dispatcher appends at most one
entry, and any appended entry has truthy (for a string: non-empty)
content. -/
theorem handleDataFinal_appends_truthy (data : JValue) (t : Nat) (st : SessionState) :
    ∃ app, (handleDataFinal data t st).history = st.history ++ app
      ∧ ∀ e ∈ app, truthy e.content = true := by
  obtain ⟨h1, h2⟩ := handleDataFinal_drop data t st
  exact ⟨_, h1, fun e he => List.all_eq_true.mp h2 e he⟩

/-- Every dispatch step of the WebRTC dispatcher appends at most one
entry, and any appended entry has truthy content. -/
theorem handleDataWebRTC_appends_truthy (data : JValue) (t : Nat) (st : SessionState) :
    ∃ app, (handleDataWebRTC data t st).history = st.history ++ app
      ∧ ∀ e ∈ app, truthy e.content = true := by
  obtain ⟨h1, h2⟩ := handleDataWebRTC_drop data t st
  exact ⟨_, h1, fun e he => List.all_eq_true.mp h2 e he⟩

/-- C10: the inbound dispatch of both cited variants preserves the
invariant that every transcript entry ever appended has truthy content —
for string content, non-empty text. In particular a conversation-item,
input-transcription-completed, or output-transcript-done message whose
transcript/text field is absent or the empty string appends no entry at
all (three such no-op instances are stated concretely). -/
theorem c10_appended_entries_nonempty (data : JValue) (t : Nat) (st : SessionState) :
    (∃ app, (handleDataFinal data t st).history = st.history ++ app
      ∧ ∀ e ∈ app, truthy e.content = true)
    ∧ (∃ app, (handleDataWebRTC data t st).history = st.history ++ app
      ∧ ∀ e ∈ app, truthy e.content = true)
    ∧ (handleDataFinal (.obj [("type", .str "input_audio_transcription.completed")])
        t st).history = st.history
    ∧ (handleDataFinal (.obj [("type", .str "response.audio_transcript.done"),
        ("transcript", .str "")]) t st).history = st.history
    ∧ (handleDataFinal (.obj [("type", .str "conversation.item.created"),
        ("item", .obj [("type", .str "message"), ("role", .str "user"),
          ("content", .arr [.obj [("transcript", .str "")]])])]) t st).history
      = st.history :=
  ⟨handleDataFinal_appends_truthy data t st,
    handleDataWebRTC_appends_truthy data t st, rfl, rfl, rfl⟩

/-- Witness for C10: instantiation at a concrete inbound message and
state. -/
theorem c10_witness :
    ∃ app, (handleDataFinal (.obj [("type", .str "input_audio_transcription.completed"),
      ("transcript", .str "こんにちは")]) 0 initialState).history
      = initialState.history ++ app ∧ ∀ e ∈ app, truthy e.content = true :=
  (c10_appended_entries_nonempty (.obj [("type",
    .str "input_audio_transcription.completed"),
    ("transcript", .str "こんにちは")]) 0 initialState).1
